import Mathlib

/-!
Shallow embedding of `streamlit_app.py` (medication-error logger).

The embedded core covers: the configuration resolver `load_google_config`
(with `_normalize_private_key`), the worksheet header repair
`ensure_headers`, the row append `append_incident`, the read-back
normalizer `load_records`, and the submit-button validation branch of
`render_form_tab`.

Python strings are Lean `String`s; `str.strip` and `str.replace` are
modelled character-by-character (`pyStrip`, `pyReplace`) so that all
definitions evaluate inside the kernel.  External collaborators
(`st.secrets`, `os.environ`, `json.loads`, the filesystem, the wall
clock, `pd.to_datetime`) enter as explicit inputs.
-/

/-- The whitespace characters stripped by Python `str.strip()`. -/
def pyWhitespace : List Char := [' ', '\t', '\n', '\r', '\x0b', '\x0c']

/-- Drop leading Python-whitespace characters. -/
def dropLeadingWs : List Char → List Char
  | [] => []
  | c :: cs => if c ∈ pyWhitespace then dropLeadingWs cs else c :: cs

/-- Python `s.strip()`: remove leading and trailing whitespace. -/
def pyStrip (s : String) : String :=
  String.mk (dropLeadingWs (dropLeadingWs s.data.reverse).reverse)

/-- `isInitSeg pat l` tests whether `pat` is an initial segment of `l`. -/
def isInitSeg : List Char → List Char → Bool
  | [], _ => true
  | _ :: _, [] => false
  | a :: as, b :: bs => a = b && isInitSeg as bs

/-- Fuelled worker for `pyReplace`; the fuel starts at the length of the
subject string, which bounds the number of replacement steps. -/
def replFuel (old new : List Char) : Nat → List Char → List Char
  | 0, s => s
  | _ + 1, [] => []
  | fuel + 1, c :: rest =>
    if !old.isEmpty && isInitSeg old (c :: rest) then
      new ++ replFuel old new fuel (List.drop (old.length - 1) rest)
    else
      c :: replFuel old new fuel rest

/-- Python `s.replace(old, new)`: replace every (leftmost,
non-overlapping) occurrence of `old` by `new`. -/
def pyReplace (s old new : String) : String :=
  String.mk (replFuel old.data new.data s.data.length s.data)

/-- `containsSeq s sub` tests whether `sub` occurs contiguously in `s`. -/
def containsSeq : List Char → List Char → Bool
  | [], sub => sub.isEmpty
  | s@(_ :: rest), sub => isInitSeg sub s || containsSeq rest sub

/-- `PROCESS_OPTIONS` from the source. -/
def PROCESS_OPTIONS : List String := ["สั่งใช้ยา", "จัด/จ่ายยา", "ให้ยา", "ผู้ป่วยใช้ยาผิดวิธี"]

/-- `SEVERITY_OPTIONS` from the source. -/
def SEVERITY_OPTIONS : List String := ["A", "B", "C", "D", "E", "F", "G", "H", "I"]

/-- `HEADERS` from the source: the fixed ordered column list. -/
def HEADERS : List String :=
  ["เวลาบันทึกระบบ",
   "หน่วยงาน",
   "ผู้บันทึก",
   "วันที่เกิดเหตุ",
   "เวลาเกิดเหตุ",
   "กระบวนการที่เกิด",
   "ชื่อยา",
   "ระดับความรุนแรง",
   "รายละเอียดเหตุการณ์"]

/-- A JSON-ish value stored in a credential dict.  Only the stringness
of a field matters to the code (`isinstance(creds["private_key"], str)`),
so non-string values are collapsed into one constructor. -/
inductive JVal where
  | str : String → JVal
  | other : JVal
deriving DecidableEq, Repr

/-- A credential dict (`dict` in Python), as an association list. -/
abbrev Creds := List (String × JVal)

/-- Python `d[k]` presence lookup on a credential dict. -/
def dictGet : Creds → String → Option JVal
  | [], _ => none
  | p :: rest, k => if p.1 = k then some p.2 else dictGet rest k

/-- Python `d[k] = v` on a key already present: rewrite its binding. -/
def dictSet : Creds → String → JVal → Creds
  | [], _, _ => []
  | p :: rest, k, v => if p.1 = k then (k, v) :: dictSet rest k v else p :: dictSet rest k v

/-- `_normalize_private_key` from the source: if the dict has a string
`private_key` field, replace literal backslash-n by real newlines. -/
def _normalize_private_key (creds : Creds) : Creds :=
  match dictGet creds "private_key" with
  | some (JVal.str s) => dictSet creds "private_key" (JVal.str (pyReplace s "\\n" "\n"))
  | _ => creds

/-- Python `cfg.get(k, d)` on a string-valued secrets table. -/
def cfgGet (cfg : List (String × String)) (k d : String) : String :=
  match cfg.find? (fun p => p.1 == k) with
  | some p => p.2
  | none => d

/-- Python string truthiness fallback `s or d`. -/
def orDefaultStr (s d : String) : String := if s = "" then d else s

/-- Python truthiness of an optional mapping (`None` and the empty
mapping are falsy). -/
def truthyDict {α : Type} (o : Option (List α)) : Bool :=
  match o with
  | some l => !l.isEmpty
  | none => false

/-- The ambient world of `load_google_config`: Streamlit secrets, the
process environment, `json.loads`, and the filesystem. -/
structure World where
  gcp_service_account : Option Creds
  gsheets : Option (List (String × String))
  env : String → Option String
  jsonLoads : String → Except String Creds
  pathExists : String → Bool
  readFile : String → String

/-- Python `os.getenv(k, d)`. -/
def getenv (w : World) (k d : String) : String := (w.env k).getD d

/-- The `RuntimeError` message raised when no configuration source
applies (verbatim from the source, newlines included). -/
def config_missing_message : String :=
  "ยังไม่ได้ตั้งค่า Google credentials / Google Sheet\n" ++
  "- ตั้ง ENV: GCP_SERVICE_ACCOUNT_JSON + GSHEET_URL (+ GSHEET_WORKSHEET) หรือ\n" ++
  "- ตั้ง ENV: GCP_SERVICE_ACCOUNT_FILE + GSHEET_URL (+ GSHEET_WORKSHEET)\n" ++
  "- หรือใช้ .streamlit/secrets.toml ตอนรัน local"

/-- `load_google_config` from the source.  Success is `Except.ok` of the
triple (credential dict, spreadsheet URL, worksheet name); every raised
exception becomes `Except.error` of its message. -/
def load_google_config (w : World) : Except String (Creds × String × String) :=
  if truthyDict w.gcp_service_account && truthyDict w.gsheets then
    let svc := w.gcp_service_account.getD []
    let gsheet_cfg := w.gsheets.getD []
    let creds_dict := _normalize_private_key svc
    let spreadsheet_url := pyStrip (cfgGet gsheet_cfg "spreadsheet_url" "")
    let worksheet_name := orDefaultStr (pyStrip (cfgGet gsheet_cfg "worksheet" "MedicationError")) "MedicationError"
    if spreadsheet_url = "" then
      Except.error "ไม่พบ gsheets.spreadsheet_url ใน secrets.toml"
    else
      Except.ok (creds_dict, spreadsheet_url, worksheet_name)
  else
    let env_json := pyStrip (getenv w "GCP_SERVICE_ACCOUNT_JSON" "")
    let spreadsheet_url := pyStrip (getenv w "GSHEET_URL" "")
    let worksheet_name := orDefaultStr (pyStrip (getenv w "GSHEET_WORKSHEET" "MedicationError")) "MedicationError"
    if env_json != "" && spreadsheet_url != "" then
      match w.jsonLoads env_json with
      | Except.error e => Except.error e
      | Except.ok creds => Except.ok (_normalize_private_key creds, spreadsheet_url, worksheet_name)
    else
      let creds_file := pyStrip (getenv w "GCP_SERVICE_ACCOUNT_FILE" "")
      if creds_file != "" && spreadsheet_url != "" then
        if !(w.pathExists creds_file) then
          Except.error ("ไม่พบไฟล์ credentials: " ++ creds_file)
        else
          match w.jsonLoads (w.readFile creds_file) with
          | Except.error e => Except.error e
          | Except.ok creds => Except.ok (_normalize_private_key creds, spreadsheet_url, worksheet_name)
      else
        Except.error config_missing_message

/-- Spec-side resolver strategy 1 (structured secrets source), following
the spec's "ordered list of resolver strategies" decomposition: `none`
means not applicable. -/
def resolve_secrets (w : World) : Option (Except String (Creds × String × String)) :=
  if truthyDict w.gcp_service_account && truthyDict w.gsheets then
    let svc := w.gcp_service_account.getD []
    let gsheet_cfg := w.gsheets.getD []
    let creds_dict := _normalize_private_key svc
    let spreadsheet_url := pyStrip (cfgGet gsheet_cfg "spreadsheet_url" "")
    let worksheet_name := orDefaultStr (pyStrip (cfgGet gsheet_cfg "worksheet" "MedicationError")) "MedicationError"
    some (if spreadsheet_url = "" then
      Except.error "ไม่พบ gsheets.spreadsheet_url ใน secrets.toml"
    else
      Except.ok (creds_dict, spreadsheet_url, worksheet_name))
  else none

/-- Spec-side resolver strategy 2 (environment JSON variable plus URL
variable); `none` means not applicable. -/
def resolve_env_json (w : World) : Option (Except String (Creds × String × String)) :=
  let env_json := pyStrip (getenv w "GCP_SERVICE_ACCOUNT_JSON" "")
  let spreadsheet_url := pyStrip (getenv w "GSHEET_URL" "")
  let worksheet_name := orDefaultStr (pyStrip (getenv w "GSHEET_WORKSHEET" "MedicationError")) "MedicationError"
  if env_json != "" && spreadsheet_url != "" then
    some (match w.jsonLoads env_json with
      | Except.error e => Except.error e
      | Except.ok creds => Except.ok (_normalize_private_key creds, spreadsheet_url, worksheet_name))
  else none

/-- Spec-side resolver strategy 3 (environment file-path variable plus
URL variable); `none` means not applicable. -/
def resolve_env_file (w : World) : Option (Except String (Creds × String × String)) :=
  let spreadsheet_url := pyStrip (getenv w "GSHEET_URL" "")
  let worksheet_name := orDefaultStr (pyStrip (getenv w "GSHEET_WORKSHEET" "MedicationError")) "MedicationError"
  let creds_file := pyStrip (getenv w "GCP_SERVICE_ACCOUNT_FILE" "")
  if creds_file != "" && spreadsheet_url != "" then
    some (if !(w.pathExists creds_file) then
      Except.error ("ไม่พบไฟล์ credentials: " ++ creds_file)
    else
      match w.jsonLoads (w.readFile creds_file) with
      | Except.error e => Except.error e
      | Except.ok creds => Except.ok (_normalize_private_key creds, spreadsheet_url, worksheet_name))
  else none

/-- First applicable outcome in a strategy list. -/
def firstHit {α : Type} : List (Option α) → Option α
  | [] => none
  | some a :: _ => some a
  | none :: rest => firstHit rest

/-- The worksheet as the code observes it: `row1` is the list of cells
gspread's `row_values(1)` returns; `dataRows` the appended data rows;
`headerWrites` counts calls to `ws.update("A1:I1", [HEADERS])`. -/
structure Worksheet where
  row1 : List String
  dataRows : List (List String)
  headerWrites : Nat
deriving DecidableEq, Repr

/-- `ensure_headers` from the source: read row 1, and when its prefix of
length `len(HEADERS)` differs from `HEADERS`, overwrite cells A1:I1 with
`HEADERS` (cells beyond column I are untouched). -/
def ensure_headers (ws : Worksheet) : Worksheet :=
  let current_headers := ws.row1
  if current_headers.take HEADERS.length ≠ HEADERS then
    { ws with
      row1 := HEADERS ++ ws.row1.drop HEADERS.length,
      headerWrites := ws.headerWrites + 1 }
  else
    ws

/-- A Python `datetime.date` as the form supplies it. -/
structure PyDate where
  year : Nat
  month : Nat
  day : Nat
deriving DecidableEq, Repr

/-- A Python `datetime.time` as the form supplies it. -/
structure PyTime where
  hour : Nat
  minute : Nat
deriving DecidableEq, Repr

/-- Zero-pad a numeral to two digits (strftime `%m`, `%d`, `%H`, `%M`). -/
def pad2 (n : Nat) : String := if n < 10 then "0" ++ toString n else toString n

/-- Zero-pad a numeral to four digits (strftime `%Y`). -/
def pad4 (n : Nat) : String :=
  if n < 10 then "000" ++ toString n
  else if n < 100 then "00" ++ toString n
  else if n < 1000 then "0" ++ toString n
  else toString n

/-- `event_date.strftime("%Y-%m-%d")`. -/
def strftimeDate (d : PyDate) : String :=
  pad4 d.year ++ "-" ++ pad2 d.month ++ "-" ++ pad2 d.day

/-- `event_time.strftime("%H:%M")`. -/
def strftimeTime (t : PyTime) : String :=
  pad2 t.hour ++ ":" ++ pad2 t.minute

/-- `append_incident` from the source.  `now_str` is the externally
supplied value of `datetime.now(THAI_TZ).strftime("%Y-%m-%d %H:%M:%S")`;
`unit_name` is `config["unit_name"]`.  `ws.append_row(row, ...)` becomes
appending `row` to `dataRows`. -/
def append_incident (ws : Worksheet) (now_str unit_name reporter : String)
    (event_date : PyDate) (event_time : PyTime)
    (process drug_name severity details : String) : Worksheet :=
  let row := [now_str,
              unit_name,
              reporter,
              strftimeDate event_date,
              strftimeTime event_time,
              process,
              pyStrip drug_name,
              severity,
              pyStrip details]
  { ws with dataRows := ws.dataRows ++ [row] }

/-- The submit-button branch of `render_form_tab`: collect per-field
validation errors; when any exist, return them with the sheet untouched,
otherwise invoke `append_incident`.  Result is (errors shown via
`st.error`, worksheet state afterwards). -/
def render_form_submit (ws : Worksheet) (now_str unit_name reporter : String)
    (event_date : PyDate) (event_time : PyTime)
    (process drug_name severity details : String) : List String × Worksheet :=
  let errors :=
    (if pyStrip drug_name = "" then ["กรุณากรอกชื่อยา"] else []) ++
    (if pyStrip details = "" then ["กรุณากรอกรายละเอียดเหตุการณ์"] else [])
  if errors ≠ [] then
    (errors, ws)
  else
    ([], append_incident ws now_str unit_name reporter event_date event_time
          process drug_name severity details)

/-- A pandas cell: a string value, or `NaN` for a key some other row has
but this one lacks. -/
inductive Cell where
  | s : String → Cell
  | nan : Cell
deriving DecidableEq, Repr

/-- One raw record from `ws.get_all_records(default_blank="")`: a
mapping from column name to cell text. -/
abbrev RawRecord := List (String × String)

/-- The normalized table: column labels plus rows of cells. -/
structure DataFrame where
  cols : List String
  rows : List (List Cell)
deriving DecidableEq, Repr

/-- Key dedup preserving first appearance (`pd.DataFrame(records)`
column construction). -/
def dedupKeys : List String → List String → List String
  | [], _ => []
  | k :: ks, seen => if k ∈ seen then dedupKeys ks seen else k :: dedupKeys ks (k :: seen)

/-- `pd.DataFrame(records).columns`: every key of every record, in first
appearance order. -/
def rawCols (records : List RawRecord) : List String :=
  dedupKeys ((records.map (fun r => r.map Prod.fst)).flatten) []

/-- Python mapping lookup in one raw record. -/
def recordGet (r : RawRecord) (k : String) : Option String :=
  (r.find? (fun p => p.1 == k)).map Prod.snd

/-- The cell the final `df[HEADERS]` holds at column `h` of the row
built from `r`: for a column the raw frame has, the record's value (or
`NaN` when this record lacks the key); for a column synthesized by
`df[col] = ""`, the empty string. -/
def cellOf (cols : List String) (r : RawRecord) (h : String) : Cell :=
  if h ∈ cols then
    match recordGet r h with
    | some v => Cell.s v
    | none => Cell.nan
  else Cell.s ""

/-- One normalized row, aligned with `HEADERS`. -/
def normRow (cols : List String) (r : RawRecord) : List Cell :=
  HEADERS.map (cellOf cols r)

/-- pandas `astype(str)` on a cell (`NaN` renders as `"nan"`). -/
def cellStr : Cell → String
  | Cell.s v => v
  | Cell.nan => "nan"

/-- The `dt_text` sort text of a normalized row:
`df["วันที่เกิดเหตุ"].astype(str).str.strip() + " " +
df["เวลาเกิดเหตุ"].astype(str).str.strip()` (columns 3 and 4 of
`HEADERS`). -/
def sortText (row : List Cell) : String :=
  pyStrip (cellStr (row.getD 3 Cell.nan)) ++ " " ++ pyStrip (cellStr (row.getD 4 Cell.nan))

/-- The comparator realizing `sort_values("_sort_dt", ascending=False,
na_position="last")`: `toDT` is `pd.to_datetime(·, errors="coerce")`,
abstracted as an arbitrary partial timestamp function into `Nat`;
`descBy toDT a b` says `a` may precede `b`. -/
def descBy (toDT : String → Option Nat) (a b : List Cell) : Bool :=
  match toDT (sortText a), toDT (sortText b) with
  | some x, some y => decide (y ≤ x)
  | some _, none => true
  | none, some _ => false
  | none, none => true

/-- `load_records` from the source, with the backend read
`ws.get_all_records(default_blank="")` supplied as `records` and
`pd.to_datetime` supplied as `toDT`.  Empty input yields the empty frame
with columns `HEADERS`; otherwise rows are normalized to the `HEADERS`
shape and sorted by descending parsed date-time with unparseable rows
last; the `_sort_dt` key is consumed by the sort and dropped. -/
def load_records (toDT : String → Option Nat) (records : List RawRecord) : DataFrame :=
  if records.isEmpty then
    ⟨HEADERS, []⟩
  else
    let cols := rawCols records
    let rows := records.map (normRow cols)
    ⟨HEADERS, rows.mergeSort (descBy toDT)⟩

/-- The Prop-level descending-key order on normalized rows: a row may
precede another when both parse and its key is no smaller, or whenever
the later row is unparseable; an unparseable row never precedes a
parseable one. -/
def sortKeyLE (toDT : String → Option Nat) (a b : List Cell) : Prop :=
  match toDT (sortText a), toDT (sortText b) with
  | some x, some y => y ≤ x
  | none, some _ => False
  | _, _ => True

/-- Build an environment function from a finite table. -/
def envOf (table : List (String × String)) : String → Option String :=
  fun k => (table.find? (fun p => p.1 == k)).map Prod.snd

/-- An environment holding a valid JSON-variable configuration. -/
def envJsonOk : String → Option String :=
  envOf [("GCP_SERVICE_ACCOUNT_JSON", "{}"), ("GSHEET_URL", "https://sheets.example/abc")]

/-- A `json.loads` oracle returning a fixed credential dict without a
`private_key` field. -/
def jsonLoadsPlain : String → Except String Creds :=
  fun _ => Except.ok [("client_email", JVal.str "svc@example.iam")]

/-- World whose secrets hold a sheet-config block with a blank URL but
no service-account block, while the environment variables are fully
configured. -/
def worldNoSvcBlankUrl : World where
  gcp_service_account := none
  gsheets := some [("spreadsheet_url", "")]
  env := envJsonOk
  jsonLoads := jsonLoadsPlain
  pathExists := fun _ => false
  readFile := fun _ => ""

/-- World whose secrets hold both a service-account block and a
sheet-config block with a blank (whitespace-only) URL, while the
environment variables are fully configured. -/
def worldSvcBlankUrl : World where
  gcp_service_account := some [("private_key", JVal.str "K")]
  gsheets := some [("spreadsheet_url", "  ")]
  env := envJsonOk
  jsonLoads := jsonLoadsPlain
  pathExists := fun _ => false
  readFile := fun _ => ""

/-- A credential dict whose private key holds literal backslash-n
escape sequences. -/
def credsEscaped : Creds := [("private_key", JVal.str "A\\nB\\nC")]

/-- A credential dict with no `private_key` field. -/
def credsPlain : Creds := [("client_email", JVal.str "svc@example.iam")]

/-- A worksheet whose first row is exactly the expected headers. -/
def wsOk : Worksheet := ⟨HEADERS, [], 0⟩

/-- A worksheet whose first row is the expected headers followed by one
extra trailing cell. -/
def wsExtra : Worksheet := ⟨HEADERS ++ ["extra"], [], 0⟩

/-- An entirely blank worksheet (row 1 has no cells). -/
def wsBlank : Worksheet := ⟨[], [], 0⟩

/-- The raw read-back of the spec's synthesized-column example: a single
record carrying only the drug-name column. -/
def recsWarfarin : List RawRecord := [[("ชื่อยา", "Warfarin")]]

/-- A `pd.to_datetime` oracle that parses nothing. -/
def toDTnone : String → Option Nat := fun _ => none

/-- C5: header repair is idempotent — if row 1 already starts with the
exact expected column sequence, `ensure_headers` performs no write, so a
second call on an already-correct header row produces no additional
write. -/
theorem c5_ensure_headers_idempotent (ws : Worksheet)
    (h : ws.row1.take HEADERS.length = HEADERS) :
    ensure_headers ws = ws ∧
    (ensure_headers (ensure_headers ws)).headerWrites = ws.headerWrites := by
  have h1 : ensure_headers ws = ws := by
    unfold ensure_headers
    simp [h]
  exact ⟨h1, by rw [h1, h1]⟩

/-- Witness for C5 at a worksheet whose row 1 is exactly `HEADERS`. -/
theorem c5_ensure_headers_idempotent_witness :
    wsOk.row1.take HEADERS.length = HEADERS ∧
    (ensure_headers wsOk = wsOk ∧
     (ensure_headers (ensure_headers wsOk)).headerWrites = wsOk.headerWrites) :=
  ⟨by decide, c5_ensure_headers_idempotent wsOk (by decide)⟩

/-- C6 counterexample: with an extra trailing cell after the expected
headers, `ensure_headers` leaves row 1 different from `HEADERS` (the
extra cell survives), refuting "the header row equals the fixed ordered
column list for every initial state, including extra trailing cells". -/
theorem c6_counterexample :
    (ensure_headers wsExtra).row1 = HEADERS ++ ["extra"] ∧
    (ensure_headers wsExtra).row1 ≠ HEADERS := by
  decide

/-- C6 as amended: after `ensure_headers`, the first `HEADERS.length`
cells of row 1 equal the fixed ordered column list, while cells beyond
the declared columns are left unchanged. -/
theorem c6_headers_prefix_after_repair (ws : Worksheet) :
    (ensure_headers ws).row1.take HEADERS.length = HEADERS ∧
    (ensure_headers ws).row1.drop HEADERS.length = ws.row1.drop HEADERS.length := by
  unfold ensure_headers
  by_cases h : ws.row1.take HEADERS.length = HEADERS
  · simp [h]
  · simp [h, List.take_left, List.drop_left]

/-- C10: `ensure_headers` is total on short first rows — when row 1 has
fewer cells than the declared column count, the prefix comparison simply
fails, a write occurs, and row 1 becomes exactly the expected header
sequence (so a blank worksheet is initialized on first access). -/
theorem c10_short_row_initialized (ws : Worksheet)
    (h : ws.row1.length < HEADERS.length) :
    (ensure_headers ws).row1 = HEADERS ∧
    (ensure_headers ws).headerWrites = ws.headerWrites + 1 := by
  have hne : ws.row1.take HEADERS.length ≠ HEADERS := by
    intro heq
    have hlen := congrArg List.length heq
    simp [List.length_take] at hlen
    omega
  unfold ensure_headers
  simp [hne, List.drop_eq_nil_of_le (Nat.le_of_lt h)]

/-- Witness for C10 at the entirely blank worksheet. -/
theorem c10_short_row_initialized_witness :
    wsBlank.row1.length < HEADERS.length ∧
    ((ensure_headers wsBlank).row1 = HEADERS ∧
     (ensure_headers wsBlank).headerWrites = wsBlank.headerWrites + 1) :=
  ⟨by decide, c10_short_row_initialized wsBlank (by decide)⟩

/-- C2: every append stores exactly the fixed nine-column row — current
timestamp, unit name, reporter, `YYYY-MM-DD` date, `HH:MM` time,
process, trimmed drug name, severity, trimmed details — and in
particular drug name `" Insulin "` and details `" overdose "` are stored
trimmed. -/
theorem c2_append_row_contract :
    (∀ (ws : Worksheet) (now_str unit_name reporter : String)
        (event_date : PyDate) (event_time : PyTime)
        (process drug_name severity details : String),
      (append_incident ws now_str unit_name reporter event_date event_time
          process drug_name severity details).dataRows =
        ws.dataRows ++
          [[now_str, unit_name, reporter, strftimeDate event_date,
            strftimeTime event_time, process, pyStrip drug_name, severity,
            pyStrip details]] ∧
      (append_incident ws now_str unit_name reporter event_date event_time
          process drug_name severity details).row1 = ws.row1) ∧
    (∀ (ws : Worksheet) (now_str unit_name reporter : String),
      (append_incident ws now_str unit_name reporter ⟨2024, 1, 10⟩ ⟨9, 0⟩
          "ให้ยา" " Insulin " "C" " overdose ").dataRows =
        ws.dataRows ++
          [[now_str, unit_name, reporter, "2024-01-10", "09:00", "ให้ยา",
            "Insulin", "C", "overdose"]]) := by
  have hd : strftimeDate ⟨2024, 1, 10⟩ = "2024-01-10" := by decide
  have ht : strftimeTime ⟨9, 0⟩ = "09:00" := by decide
  have hdrug : pyStrip " Insulin " = "Insulin" := by decide
  have hdet : pyStrip " overdose " = "overdose" := by decide
  constructor
  · intro ws now_str unit_name reporter event_date event_time process drug_name severity details
    exact ⟨rfl, rfl⟩
  · intro ws now_str unit_name reporter
    simp [append_incident, hd, ht, hdrug, hdet]

/-- C9: when a required free-text field is blank after trimming, form
submission returns per-field errors and leaves the worksheet untouched —
`append_incident` is never invoked. -/
theorem c9_blank_fields_block_append (ws : Worksheet)
    (now_str unit_name reporter : String) (event_date : PyDate)
    (event_time : PyTime) (process drug_name severity details : String)
    (h : pyStrip drug_name = "" ∨ pyStrip details = "") :
    (render_form_submit ws now_str unit_name reporter event_date event_time
        process drug_name severity details).2 = ws ∧
    (render_form_submit ws now_str unit_name reporter event_date event_time
        process drug_name severity details).1 ≠ [] ∧
    (pyStrip drug_name = "" →
      "กรุณากรอกชื่อยา" ∈ (render_form_submit ws now_str unit_name reporter
        event_date event_time process drug_name severity details).1) ∧
    (pyStrip details = "" →
      "กรุณากรอกรายละเอียดเหตุการณ์" ∈ (render_form_submit ws now_str unit_name
        reporter event_date event_time process drug_name severity details).1) := by
  by_cases h1 : pyStrip drug_name = "" <;> by_cases h2 : pyStrip details = "" <;>
    simp_all [render_form_submit]

/-- Witness for C9 at a blank (whitespace-only) drug name. -/
theorem c9_blank_fields_block_append_witness :
    (pyStrip "   " = "" ∨ pyStrip "overdose" = "") ∧
    ((render_form_submit wsOk "now" "unit" "rep" ⟨2024, 1, 10⟩ ⟨9, 0⟩
        "ให้ยา" "   " "C" "overdose").2 = wsOk ∧
     (render_form_submit wsOk "now" "unit" "rep" ⟨2024, 1, 10⟩ ⟨9, 0⟩
        "ให้ยา" "   " "C" "overdose").1 ≠ [] ∧
     (pyStrip "   " = "" →
       "กรุณากรอกชื่อยา" ∈ (render_form_submit wsOk "now" "unit" "rep"
         ⟨2024, 1, 10⟩ ⟨9, 0⟩ "ให้ยา" "   " "C" "overdose").1) ∧
     (pyStrip "overdose" = "" →
       "กรุณากรอกรายละเอียดเหตุการณ์" ∈ (render_form_submit wsOk "now" "unit"
         "rep" ⟨2024, 1, 10⟩ ⟨9, 0⟩ "ให้ยา" "   " "C" "overdose").1)) :=
  ⟨Or.inl (by decide),
   c9_blank_fields_block_append wsOk "now" "unit" "rep" ⟨2024, 1, 10⟩ ⟨9, 0⟩
     "ให้ยา" "   " "C" "overdose" (Or.inl (by decide))⟩

/-- C7 counterexample: the secrets store holds a sheet-config block with
a blank spreadsheet URL, yet (because no service-account block is
present) resolution falls through to the environment-variable source and
succeeds instead of failing with the missing-URL error. -/
theorem c7_counterexample :
    cfgGet (worldNoSvcBlankUrl.gsheets.getD []) "spreadsheet_url" "" = "" ∧
    load_google_config worldNoSvcBlankUrl =
      Except.ok ([("client_email", JVal.str "svc@example.iam")],
        "https://sheets.example/abc", "MedicationError") := by
  constructor
  · decide
  · rfl

/-- C7 as amended: whenever the structured secrets source contains both
a (truthy) service-account block and a (truthy) sheet-config block whose
spreadsheet URL is blank after trimming, resolution fails with the error
naming `gsheets.spreadsheet_url`, regardless of the environment
variables. -/
theorem c7_blank_secrets_url_fails (w : World)
    (hsvc : truthyDict w.gcp_service_account = true)
    (hcfg : truthyDict w.gsheets = true)
    (hurl : pyStrip (cfgGet (w.gsheets.getD []) "spreadsheet_url" "") = "") :
    load_google_config w =
      Except.error "ไม่พบ gsheets.spreadsheet_url ใน secrets.toml" := by
  unfold load_google_config
  simp [hsvc, hcfg, hurl]

/-- Witness for C7's amended claim: both secrets blocks present, URL
whitespace-only, environment fully configured — the secrets error still
wins. -/
theorem c7_blank_secrets_url_fails_witness :
    truthyDict worldSvcBlankUrl.gcp_service_account = true ∧
    truthyDict worldSvcBlankUrl.gsheets = true ∧
    pyStrip (cfgGet (worldSvcBlankUrl.gsheets.getD []) "spreadsheet_url" "") = "" ∧
    load_google_config worldSvcBlankUrl =
      Except.error "ไม่พบ gsheets.spreadsheet_url ใน secrets.toml" :=
  ⟨by decide, by decide, by decide,
   c7_blank_secrets_url_fails worldSvcBlankUrl (by decide) (by decide) (by decide)⟩

/-- Auxiliary: rewriting the present `private_key` binding is visible to
lookup. -/
theorem dictGet_dictSet_self (d : Creds) (k : String) (v : JVal)
    (h : (dictGet d k).isSome) : dictGet (dictSet d k v) k = some v := by
  induction d with
  | nil => simp [dictGet] at h
  | cons p rest ih =>
    by_cases hk : p.1 = k
    · simp [dictGet, dictSet, hk]
    · simp only [dictGet, dictSet, if_neg hk] at h ⊢
      exact ih h

/-- C8: any string `private_key` field has its literal backslash-n
sequences replaced by real newlines; credential dicts without such a
field pass through unchanged; and every successful configuration
resolution returns a credential dict that is the normalization of some
raw dict. -/
theorem c8_private_key_normalized :
    (∀ (creds : Creds) (s : String),
      dictGet creds "private_key" = some (JVal.str s) →
      dictGet (_normalize_private_key creds) "private_key" =
        some (JVal.str (pyReplace s "\\n" "\n"))) ∧
    (∀ creds : Creds,
      (∀ s : String, dictGet creds "private_key" ≠ some (JVal.str s)) →
      _normalize_private_key creds = creds) ∧
    (∀ (w : World) (c : Creds) (u n : String),
      load_google_config w = Except.ok (c, u, n) →
      ∃ raw : Creds, c = _normalize_private_key raw) := by
  refine ⟨?_, ?_, ?_⟩
  · intro creds s h
    have hs : (dictGet creds "private_key").isSome := by rw [h]; rfl
    simp only [_normalize_private_key, h]
    exact dictGet_dictSet_self creds "private_key" _ hs
  · intro creds hno
    cases hg : dictGet creds "private_key" with
    | none => simp [_normalize_private_key, hg]
    | some v =>
      cases v with
      | str s => exact absurd hg (hno s)
      | other => simp [_normalize_private_key, hg]
  · intro w c u n h
    cases h1 : (truthyDict w.gcp_service_account && truthyDict w.gsheets) with
    | true =>
      simp only [load_google_config, h1, if_true] at h
      by_cases h2 : pyStrip (cfgGet (w.gsheets.getD []) "spreadsheet_url" "") = ""
      · rw [if_pos h2] at h
        exact absurd h (by simp)
      · rw [if_neg h2] at h
        simp only [Except.ok.injEq, Prod.mk.injEq] at h
        exact ⟨w.gcp_service_account.getD [], h.1.symm⟩
    | false =>
      simp only [load_google_config, h1, Bool.false_eq_true, if_false] at h
      cases h2 : (pyStrip (getenv w "GCP_SERVICE_ACCOUNT_JSON" "") != "" &&
          pyStrip (getenv w "GSHEET_URL" "") != "") with
      | true =>
        rw [h2, if_pos rfl] at h
        cases h3 : w.jsonLoads (pyStrip (getenv w "GCP_SERVICE_ACCOUNT_JSON" "")) with
        | error e => rw [h3] at h; exact absurd h (by simp)
        | ok creds =>
          rw [h3] at h
          simp only [Except.ok.injEq, Prod.mk.injEq] at h
          exact ⟨creds, h.1.symm⟩
      | false =>
        rw [h2] at h
        simp only [Bool.false_eq_true, if_false] at h
        cases h4 : (pyStrip (getenv w "GCP_SERVICE_ACCOUNT_FILE" "") != "" &&
            pyStrip (getenv w "GSHEET_URL" "") != "") with
        | true =>
          rw [h4, if_pos rfl] at h
          cases h5 : w.pathExists (pyStrip (getenv w "GCP_SERVICE_ACCOUNT_FILE" "")) with
          | false =>
            rw [h5] at h
            exact absurd h (by simp)
          | true =>
            rw [h5] at h
            simp only [Bool.not_true, Bool.false_eq_true, if_false] at h
            cases h6 : w.jsonLoads (w.readFile (pyStrip (getenv w "GCP_SERVICE_ACCOUNT_FILE" ""))) with
            | error e => rw [h6] at h; exact absurd h (by simp)
            | ok creds =>
              rw [h6] at h
              simp only [Except.ok.injEq, Prod.mk.injEq] at h
              exact ⟨creds, h.1.symm⟩
        | false =>
          rw [h4] at h
          simp only [Bool.false_eq_true, if_false] at h
          exact absurd h (by simp [config_missing_message])

/-- Witness for C8: a key with escape sequences is rewritten (and the
rewrite really yields newlines), a key-free dict passes through, and a
successful env-JSON resolution returns a normalized dict. -/
theorem c8_private_key_normalized_witness :
    dictGet (_normalize_private_key credsEscaped) "private_key" =
      some (JVal.str (pyReplace "A\\nB\\nC" "\\n" "\n")) ∧
    pyReplace "A\\nB\\nC" "\\n" "\n" = "A\nB\nC" ∧
    _normalize_private_key credsPlain = credsPlain ∧
    (∃ raw : Creds,
      ([("client_email", JVal.str "svc@example.iam")] : Creds) =
        _normalize_private_key raw) :=
  ⟨c8_private_key_normalized.1 credsEscaped "A\\nB\\nC" (by decide),
   by decide,
   c8_private_key_normalized.2.1 credsPlain (fun s h => by simp [credsPlain, dictGet] at h),
   c8_private_key_normalized.2.2 worldNoSvcBlankUrl _ "https://sheets.example/abc"
     "MedicationError" rfl⟩

set_option maxRecDepth 16384 in
/-- C1: configuration resolution equals running the three resolver
strategies (structured secrets; environment JSON variable + URL;
environment file-path variable + URL) in strict priority order with the
first applicable one deciding the outcome, and falling back — when none
applies — to an error whose multi-line message (three `\n`-separated
continuation lines) enumerates the JSON-variable method, the
file-variable method, and the secrets-file method. -/
theorem c1_config_priority_and_fallback :
    (∀ w : World,
      load_google_config w =
        (firstHit [resolve_secrets w, resolve_env_json w, resolve_env_file w]).getD
          (Except.error config_missing_message)) ∧
    config_missing_message.data.count '\n' = 3 ∧
    containsSeq config_missing_message.data
      "GCP_SERVICE_ACCOUNT_JSON + GSHEET_URL".data = true ∧
    containsSeq config_missing_message.data
      "GCP_SERVICE_ACCOUNT_FILE + GSHEET_URL".data = true ∧
    containsSeq config_missing_message.data ".streamlit/secrets.toml".data = true := by
  refine ⟨?_, by decide, by decide, by decide, by decide⟩
  intro w
  cases h1 : (truthyDict w.gcp_service_account && truthyDict w.gsheets) with
  | true =>
    simp [load_google_config, resolve_secrets, h1, firstHit]
  | false =>
    cases h2 : (pyStrip (getenv w "GCP_SERVICE_ACCOUNT_JSON" "") != "" &&
        pyStrip (getenv w "GSHEET_URL" "") != "") with
    | true =>
      simp [load_google_config, resolve_secrets, resolve_env_json, h1, h2, firstHit]
    | false =>
      cases h3 : (pyStrip (getenv w "GCP_SERVICE_ACCOUNT_FILE" "") != "" &&
          pyStrip (getenv w "GSHEET_URL" "") != "") with
      | true =>
        simp [load_google_config, resolve_secrets, resolve_env_json, resolve_env_file,
          h1, h2, h3, firstHit]
      | false =>
        simp [load_google_config, resolve_secrets, resolve_env_json, resolve_env_file,
          h1, h2, h3, firstHit]

/-- Auxiliary: the normalized table always carries exactly the declared
columns. -/
theorem load_records_cols (toDT : String → Option Nat) (records : List RawRecord) :
    (load_records toDT records).cols = HEADERS := by
  cases records with
  | nil => rfl
  | cons r rs => rfl

/-- Auxiliary: the row comparator is transitive. -/
theorem descBy_trans (toDT : String → Option Nat) (a b c : List Cell)
    (hab : descBy toDT a b = true) (hbc : descBy toDT b c = true) :
    descBy toDT a c = true := by
  unfold descBy at *
  cases ha : toDT (sortText a) <;> cases hb : toDT (sortText b) <;>
    cases hc : toDT (sortText c) <;> (simp_all; try omega)

/-- Auxiliary: the row comparator is total. -/
theorem descBy_total (toDT : String → Option Nat) (a b : List Cell) :
    (descBy toDT a b || descBy toDT b a) = true := by
  unfold descBy
  cases ha : toDT (sortText a) <;> cases hb : toDT (sortText b) <;> (simp; try omega)

/-- Auxiliary: the Boolean comparator implies the Prop-level
descending-key order. -/
theorem descBy_le (toDT : String → Option Nat) {a b : List Cell}
    (h : descBy toDT a b = true) : sortKeyLE toDT a b := by
  unfold descBy at h
  unfold sortKeyLE
  cases ha : toDT (sortText a) <;> cases hb : toDT (sortText b) <;> simp_all

/-- C3: for every raw input the normalizer returns a table whose columns
are exactly the declared list in declared order; empty input yields the
zero-row table with columns `HEADERS` rather than an error; and every
declared column absent from the raw rows is synthesized with
empty-string cells. -/
theorem c3_normalizer_shape :
    (∀ (toDT : String → Option Nat) (records : List RawRecord),
      (load_records toDT records).cols = HEADERS) ∧
    (∀ toDT : String → Option Nat,
      load_records toDT [] = ⟨HEADERS, []⟩) ∧
    (∀ (toDT : String → Option Nat) (records : List RawRecord)
        (row : List Cell) (i : Nat) (hi : i < HEADERS.length),
      HEADERS.get ⟨i, hi⟩ ∉ rawCols records →
      row ∈ (load_records toDT records).rows →
      row.getD i Cell.nan = Cell.s "") := by
  refine ⟨load_records_cols, fun _ => rfl, ?_⟩
  intro toDT records row i hi habs hrow
  cases records with
  | nil => simp [load_records] at hrow
  | cons r rs =>
    simp only [load_records, List.isEmpty_cons, if_false, Bool.false_eq_true,
      List.mem_mergeSort] at hrow
    obtain ⟨q, hq, rfl⟩ := List.mem_map.mp hrow
    unfold normRow
    have hlen : i < (HEADERS.map (cellOf (rawCols (r :: rs)) q)).length := by
      simpa using hi
    rw [List.getD_eq_getElem _ _ hlen, List.getElem_map]
    rw [List.get_eq_getElem] at habs
    unfold cellOf
    exact if_neg habs

/-- Witness for C3 at the spec's example: one record holding only the
drug-name column; the details column is synthesized as the empty
string. -/
theorem c3_normalizer_shape_witness :
    (HEADERS.get ⟨8, by decide⟩ ∉ rawCols recsWarfarin) ∧
    (normRow (rawCols recsWarfarin) [("ชื่อยา", "Warfarin")] ∈
      (load_records toDTnone recsWarfarin).rows) ∧
    (normRow (rawCols recsWarfarin) [("ชื่อยา", "Warfarin")]).getD 8 Cell.nan =
      Cell.s "" := by
  have hmem : normRow (rawCols recsWarfarin) [("ชื่อยา", "Warfarin")] ∈
      (load_records toDTnone recsWarfarin).rows := by
    simp [load_records, recsWarfarin]
  exact ⟨by decide, hmem,
    c3_normalizer_shape.2.2 toDTnone recsWarfarin _ 8 (by decide) (by decide) hmem⟩

/-- C4: the normalizer's output rows are a permutation of the normalized
input rows arranged in descending parsed date-time order (the key being
the space-separated concatenation of the event-date and event-time cells
fed to the parser): a row that precedes another either has a
greater-or-equal parsed key or the later row is unparseable, an
unparseable row never precedes a parseable one, and the derived
`_sort_dt` key column does not appear among the output columns. -/
theorem c4_normalizer_sorted :
    ∀ (toDT : String → Option Nat) (records : List RawRecord),
      (load_records toDT records).rows.Pairwise (sortKeyLE toDT) ∧
      (load_records toDT records).rows.Perm
        (records.map (normRow (rawCols records))) ∧
      "_sort_dt" ∉ (load_records toDT records).cols := by
  intro toDT records
  refine ⟨?_, ?_, ?_⟩
  · cases records with
    | nil => simp [load_records]
    | cons r rs =>
      simp only [load_records, List.isEmpty_cons, Bool.false_eq_true, if_false]
      have hs := List.sorted_mergeSort (descBy_trans toDT) (descBy_total toDT)
        ((r :: rs).map (normRow (rawCols (r :: rs))))
      exact hs.imp (descBy_le toDT)
  · cases records with
    | nil => simp [load_records]
    | cons r rs =>
      simp only [load_records, List.isEmpty_cons, Bool.false_eq_true, if_false]
      exact List.mergeSort_perm _ _
  · rw [load_records_cols]
    decide
